import Mathlib

/-!
Shallow embedding of the RabbitMQ `Queue` adapter of ev-backend-common
(`src/lib/src/port/adapter/messaging/rabbitmq/Queue.js`, compiled from the
TypeScript source also present in the repository).

Modelling conventions:

* The broker transport (the amqplib channel reached through `BrokerChannel`)
  is a test double `Transport` describing, for each primitive the pipeline
  may invoke, whether it succeeds and with which reply; every primitive the
  code actually invokes is recorded in an `Event` trace, so "no I/O happens"
  is `trace = []`.
* A JavaScript rejection value or thrown exception is modelled by its string
  form, since every diagnostic the code builds is a string concatenation
  `Constant.X + e`.  A thrown `Error` object concatenates as
  `"Error: " ++ message` (`errorToString`).
* `name == null || name == ""` on a `string` parameter is modelled by
  `name = ""`: both branches of the JavaScript test reject identically, so
  the `null` case is folded into the empty string.
* An `Exchange` is represented by the only datum the `Queue` code reads from
  it, `exchange.name()`.
* JavaScript `Promise.all` over the routing-key binds issues every bind call
  (all events appear in the trace) and, with the synchronous double, rejects
  with the first failing bind in list order.
-/

namespace RabbitMQ

/-!
Diagnostic identifiers of the `Constant` catalog referenced by `Queue.js`.
Modelled from the spec: `Constant.js` itself is not among the source files,
and the spec (§7) describes the constants as a catalog of distinct
error-message identifiers naming pipeline stages, so each is modelled as a
distinct string literal.
-/
namespace Constant

def INDIVIDUAL_SUBSCRIBER_MUST_HAS_NAME : String := "individual subscriber must has name. "

def QUEUE_BUILD_THROWS_ERROR : String := "queue build throws error. "

def FAILED_ASSERT_QUEUE : String := "failed assert queue. "

def FAILED_BINDING_QUEUE_AND_EXCHANGE : String := "failed binding queue and exchange. "

def MESSAGE_CONSUMER_ERROR_EVENT_NAME : String := "messageConsumerError"

end Constant

/-- String form of a thrown JavaScript `Error e` when concatenated into a
diagnostic (`Constant.X + e` yields `Constant.X ++ "Error: " ++ e.message`). -/
def errorToString (message : String) : String := "Error: " ++ message

/-- Mutable state of a `Queue` (inherited from `BrokerChannel`): its `name`
and its `isDurable` flag, the two fields the claims observe through `name()`,
`setName()`, `setDurable()`. -/
structure QueueState where
  name : String
  isDurable : Bool
  deriving DecidableEq

/-- Broker-side I/O calls the construction pipeline can issue, in order. -/
inductive Event where
  | build : Event
  | assertQueue : String → Bool → Bool → Bool → Event
  | bindQueue : String → String → String → Event
  deriving DecidableEq

/-- Transport double: the result of each broker primitive.  `buildResult`
is `none` when `queue.build()` succeeds and `some e` when it throws `e`;
`assertQueue` answers the broker-assigned queue name or a rejection;
`bindQueue` answers `none` on success or `some e` on rejection. -/
structure Transport where
  buildResult : Option String
  assertQueue : String → Bool → Bool → Bool → Except String String
  bindQueue : String → String → String → Option String

/-- Caller-visible settlement of a factory promise. -/
inductive Outcome where
  | resolved : QueueState → Outcome
  | rejected : String → Outcome
  deriving DecidableEq

/-- State of a freshly constructed `Queue` before any stage runs.  The
`name` is the constructor argument.  Modelled from the spec: the initial
value of the `BrokerChannel` durability flag before `setDurable` is not in
the source files; it is taken as `false`, and no claim depends on it. -/
def newQueue (name : String) : QueueState := { name := name, isDurable := false }

/-- Embedding of `Queue#constructQueueAssertion(isDurable, isExclusive,
isAutoDeleted)`: `setDurable(isDurable)` first, then
`channel().assertQueue(this.name(), {durable, exclusive, autoDelete})`;
on success `setName(queueReply.queue)`, on failure it throws
`new Error(FAILED_ASSERT_QUEUE + e)`.  Returns the thrown error's message
(if any), the post-call state, and the issued I/O events. -/
def constructQueueAssertion (t : Transport) (st : QueueState)
    (isDurable isExclusive isAutoDeleted : Bool) :
    Option String × QueueState × List Event :=
  let st1 : QueueState := { st with isDurable := isDurable }
  match t.assertQueue st1.name isDurable isExclusive isAutoDeleted with
  | Except.ok reply =>
      (none, { st1 with name := reply },
        [Event.assertQueue st.name isDurable isExclusive isAutoDeleted])
  | Except.error e =>
      (some (Constant.FAILED_ASSERT_QUEUE ++ e), st1,
        [Event.assertQueue st.name isDurable isExclusive isAutoDeleted])

/-- Embedding of `Queue.customInstanceUsingConnectionSetting(connectionSetting,
name, isDurable, isExclusive, isAutoDeleted)` (defaults `true, false, false`
in the source; always passed explicitly here).  Note the assertion-failure
catch rejects with `FAILED_BINDING_QUEUE_AND_EXCHANGE + e`. -/
def customInstanceUsingConnectionSetting (t : Transport) (name : String)
    (isDurable isExclusive isAutoDeleted : Bool) : Outcome × List Event :=
  if name = "" then
    (Outcome.rejected Constant.INDIVIDUAL_SUBSCRIBER_MUST_HAS_NAME, [])
  else
    match t.buildResult with
    | some e =>
        (Outcome.rejected (Constant.QUEUE_BUILD_THROWS_ERROR ++ e), [Event.build])
    | none =>
        match constructQueueAssertion t (newQueue name) isDurable isExclusive isAutoDeleted with
        | (none, st, tr) => (Outcome.resolved st, Event.build :: tr)
        | (some m, _, tr) =>
            (Outcome.rejected (Constant.FAILED_BINDING_QUEUE_AND_EXCHANGE ++ errorToString m),
              Event.build :: tr)

/-- Embedding of `Queue.durableInstance(connectionSetting, name)`:
validate the name, `build()`, then `constructQueueAssertion(true, false,
false)`; assertion failure rejects with `FAILED_ASSERT_QUEUE + e`. -/
def durableInstance (t : Transport) (name : String) : Outcome × List Event :=
  if name = "" then
    (Outcome.rejected Constant.INDIVIDUAL_SUBSCRIBER_MUST_HAS_NAME, [])
  else
    match t.buildResult with
    | some e =>
        (Outcome.rejected (Constant.QUEUE_BUILD_THROWS_ERROR ++ e), [Event.build])
    | none =>
        match constructQueueAssertion t (newQueue name) true false false with
        | (none, st, tr) => (Outcome.resolved st, Event.build :: tr)
        | (some m, _, tr) =>
            (Outcome.rejected (Constant.FAILED_ASSERT_QUEUE ++ errorToString m),
              Event.build :: tr)

/-- Embedding of `Queue.durableExclusiveInstance(connectionSetting, name)`:
like `durableInstance` but asserting `(true, true, false)`. -/
def durableExclusiveInstance (t : Transport) (name : String) : Outcome × List Event :=
  if name = "" then
    (Outcome.rejected Constant.INDIVIDUAL_SUBSCRIBER_MUST_HAS_NAME, [])
  else
    match t.buildResult with
    | some e =>
        (Outcome.rejected (Constant.QUEUE_BUILD_THROWS_ERROR ++ e), [Event.build])
    | none =>
        match constructQueueAssertion t (newQueue name) true true false with
        | (none, st, tr) => (Outcome.resolved st, Event.build :: tr)
        | (some m, _, tr) =>
            (Outcome.rejected (Constant.FAILED_ASSERT_QUEUE ++ errorToString m),
              Event.build :: tr)

/-- Embedding of `Queue.durableNonExclusiveNotAutoDeletedInstance(
connectionSetting, name)`: the source body is the same pipeline as
`durableInstance` — validate, `build()`, assert `(true, false, false)`,
assertion failure rejected with `FAILED_ASSERT_QUEUE + e` (the two differ
only in a `debugError` log line on the build-failure path, which is not
caller-visible). -/
def durableNonExclusiveNotAutoDeletedInstance (t : Transport) (name : String) :
    Outcome × List Event :=
  if name = "" then
    (Outcome.rejected Constant.INDIVIDUAL_SUBSCRIBER_MUST_HAS_NAME, [])
  else
    match t.buildResult with
    | some e =>
        (Outcome.rejected (Constant.QUEUE_BUILD_THROWS_ERROR ++ e), [Event.build])
    | none =>
        match constructQueueAssertion t (newQueue name) true false false with
        | (none, st, tr) => (Outcome.resolved st, Event.build :: tr)
        | (some m, _, tr) =>
            (Outcome.rejected (Constant.FAILED_ASSERT_QUEUE ++ errorToString m),
              Event.build :: tr)

/-- Embedding of `Queue.customInstanceUsingExchange(exchange, name,
routingKeys, isDurable, isExclusive, isAutoDeleted)` (defaults `[], true,
false, false` in the source; always passed explicitly here).  After a
successful assertion, `Promise.all` issues one
`bindQueue(queue.name(), exchange.name(), routingKey)` per routing key;
a bind failure rejects with `FAILED_BINDING_QUEUE_AND_EXCHANGE + e`, and so
does an assertion failure (the outer catch). -/
def customInstanceUsingExchange (t : Transport) (exchangeName name : String)
    (routingKeys : List String) (isDurable isExclusive isAutoDeleted : Bool) :
    Outcome × List Event :=
  if name = "" then
    (Outcome.rejected Constant.INDIVIDUAL_SUBSCRIBER_MUST_HAS_NAME, [])
  else
    match t.buildResult with
    | some e =>
        (Outcome.rejected (Constant.QUEUE_BUILD_THROWS_ERROR ++ e), [Event.build])
    | none =>
        match constructQueueAssertion t (newQueue name) isDurable isExclusive isAutoDeleted with
        | (none, st, tr) =>
            let bindEvents := routingKeys.map (fun k => Event.bindQueue st.name exchangeName k)
            match (routingKeys.filterMap (fun k => t.bindQueue st.name exchangeName k)).head? with
            | none => (Outcome.resolved st, Event.build :: tr ++ bindEvents)
            | some e =>
                (Outcome.rejected (Constant.FAILED_BINDING_QUEUE_AND_EXCHANGE ++ e),
                  Event.build :: tr ++ bindEvents)
        | (some m, _, tr) =>
            (Outcome.rejected (Constant.FAILED_BINDING_QUEUE_AND_EXCHANGE ++ errorToString m),
              Event.build :: tr)

/-- Embedding of `Queue.individualExchangeSubscriberInstance(exchange, name,
routingKeys)`: validate, `build()`, assert `(true, false, false)`, then one
bind per routing key; both the bind catch and the assertion catch reject
with `FAILED_BINDING_QUEUE_AND_EXCHANGE + e`. -/
def individualExchangeSubscriberInstance (t : Transport) (exchangeName name : String)
    (routingKeys : List String) : Outcome × List Event :=
  if name = "" then
    (Outcome.rejected Constant.INDIVIDUAL_SUBSCRIBER_MUST_HAS_NAME, [])
  else
    match t.buildResult with
    | some e =>
        (Outcome.rejected (Constant.QUEUE_BUILD_THROWS_ERROR ++ e), [Event.build])
    | none =>
        match constructQueueAssertion t (newQueue name) true false false with
        | (none, st, tr) =>
            let bindEvents := routingKeys.map (fun k => Event.bindQueue st.name exchangeName k)
            match (routingKeys.filterMap (fun k => t.bindQueue st.name exchangeName k)).head? with
            | none => (Outcome.resolved st, Event.build :: tr ++ bindEvents)
            | some e =>
                (Outcome.rejected (Constant.FAILED_BINDING_QUEUE_AND_EXCHANGE ++ e),
                  Event.build :: tr ++ bindEvents)
        | (some m, _, tr) =>
            (Outcome.rejected (Constant.FAILED_BINDING_QUEUE_AND_EXCHANGE ++ errorToString m),
              Event.build :: tr)

/-- Embedding of `Queue.exchangeTemporarySubscriberInstance(exchange)`: no
name validation, the queue is constructed with name `""`, `build()`,
assert `(false, true, true)`, then a single
`bindQueue(queue.name(), exchange.name(), "")`; bind and assertion failures
both reject with `FAILED_BINDING_QUEUE_AND_EXCHANGE + e`. -/
def exchangeTemporarySubscriberInstance (t : Transport) (exchangeName : String) :
    Outcome × List Event :=
  match t.buildResult with
  | some e =>
      (Outcome.rejected (Constant.QUEUE_BUILD_THROWS_ERROR ++ e), [Event.build])
  | none =>
      match constructQueueAssertion t (newQueue "") false true true with
      | (none, st, tr) =>
          match t.bindQueue st.name exchangeName "" with
          | none =>
              (Outcome.resolved st, Event.build :: tr ++ [Event.bindQueue st.name exchangeName ""])
          | some e =>
              (Outcome.rejected (Constant.FAILED_BINDING_QUEUE_AND_EXCHANGE ++ e),
                Event.build :: tr ++ [Event.bindQueue st.name exchangeName ""])
      | (some m, _, tr) =>
          (Outcome.rejected (Constant.FAILED_BINDING_QUEUE_AND_EXCHANGE ++ errorToString m),
            Event.build :: tr)

/-- Embedding of `Queue.exchangeNamedSubscriberInstance(exchange, name)`.
Unlike every other named recipe, the source performs no
`name == null || name == ""` check: it goes straight to `build()`, asserts
`(true, false, false)` with the given name, and issues a single
`bindQueue(queue.name(), exchange.name(), "")`; bind and assertion failures
both reject with `FAILED_BINDING_QUEUE_AND_EXCHANGE + e`. -/
def exchangeNamedSubscriberInstance (t : Transport) (exchangeName name : String) :
    Outcome × List Event :=
  match t.buildResult with
  | some e =>
      (Outcome.rejected (Constant.QUEUE_BUILD_THROWS_ERROR ++ e), [Event.build])
  | none =>
      match constructQueueAssertion t (newQueue name) true false false with
      | (none, st, tr) =>
          match t.bindQueue st.name exchangeName "" with
          | none =>
              (Outcome.resolved st, Event.build :: tr ++ [Event.bindQueue st.name exchangeName ""])
          | some e =>
              (Outcome.rejected (Constant.FAILED_BINDING_QUEUE_AND_EXCHANGE ++ e),
                Event.build :: tr ++ [Event.bindQueue st.name exchangeName ""])
      | (some m, _, tr) =>
          (Outcome.rejected (Constant.FAILED_BINDING_QUEUE_AND_EXCHANGE ++ errorToString m),
            Event.build :: tr)

/-- Embedding of `Queue.exchangeTemporaryDirectOrTopicSubscriberInstance(
exchange, routingKeys)`: queue constructed with name `""`, `build()`,
assert `(false, true, true)`, then one bind per routing key via
`Promise.all`; bind and assertion failures both reject with
`FAILED_BINDING_QUEUE_AND_EXCHANGE + e`. -/
def exchangeTemporaryDirectOrTopicSubscriberInstance (t : Transport)
    (exchangeName : String) (routingKeys : List String) : Outcome × List Event :=
  match t.buildResult with
  | some e =>
      (Outcome.rejected (Constant.QUEUE_BUILD_THROWS_ERROR ++ e), [Event.build])
  | none =>
      match constructQueueAssertion t (newQueue "") false true true with
      | (none, st, tr) =>
          let bindEvents := routingKeys.map (fun k => Event.bindQueue st.name exchangeName k)
          match (routingKeys.filterMap (fun k => t.bindQueue st.name exchangeName k)).head? with
          | none => (Outcome.resolved st, Event.build :: tr ++ bindEvents)
          | some e =>
              (Outcome.rejected (Constant.FAILED_BINDING_QUEUE_AND_EXCHANGE ++ e),
                Event.build :: tr ++ bindEvents)
      | (some m, _, tr) =>
          (Outcome.rejected (Constant.FAILED_BINDING_QUEUE_AND_EXCHANGE ++ errorToString m),
            Event.build :: tr)

/-- Acknowledgment operations issued on the channel.  `ackOp message allUpTo`
models `channel.ack(message, allUpTo)` and `nackOp message allUpTo requeue`
models `channel.nack(message, allUpTo, requeue)` of the amqplib channel. -/
inductive ChannelOp where
  | ackOp : String → Bool → ChannelOp
  | nackOp : String → Bool → Bool → ChannelOp
  deriving DecidableEq

namespace Queue

/-- Embedding of `Queue#ack(message)`: `this.channel().ack(message)`.
amqplib's `ack(message, allUpTo)` treats an omitted `allUpTo` as `false`,
so exactly one single-message acknowledgment is issued. -/
def ack (message : String) : List ChannelOp := [ChannelOp.ackOp message false]

/-- Embedding of `Queue#nack(message, reqeue)`:
`this.channel().nack(message, false, reqeue)` — the `allUpTo` argument is
fixed to `false` and the caller's requeue flag is forwarded unchanged. -/
def nack (message : String) (reqeue : Bool) : List ChannelOp :=
  [ChannelOp.nackOp message false reqeue]

end Queue

/-- Application-supplied `MessageListener` double: for each message (modelled
by its opaque string payload), whether `setCurrentMessage` respectively
`handleMessage` returns normally (`none`) or throws synchronously
(`some e`). -/
structure MessageListener where
  setCurrentMessageResult : String → Option String
  handleMessageResult : String → Option String

/-- Observable effects of one invocation of the per-delivery callback
registered by `Queue#consume`: the messages passed to `setCurrentMessage`
and to `handleMessage`, the `(eventName, error)` pairs emitted on the queue
instance, the acknowledgment operations issued on the channel by the
callback itself, and the exception escaping the callback, if any. -/
structure DeliveryEffects where
  setCalls : List String
  handleCalls : List String
  emits : List (String × String)
  channelOps : List ChannelOp
  escaped : Option String
  deriving DecidableEq

namespace Queue

/-- Embedding of the per-delivery callback that `Queue#consume` registers
with `channel().consume(this.name(), cb, options)`:

`messageListener.setCurrentMessage(msg)` runs first and outside any guard;
then `messageListener.handleMessage(msg, ack)` runs inside `try`, and a
synchronous throw `e` from it is caught and re-emitted as
`this.emit(MESSAGE_CONSUMER_ERROR_EVENT_NAME, e)`.  The callback body
issues no channel operation of its own. -/
def onDelivery (l : MessageListener) (msg : String) : DeliveryEffects :=
  match l.setCurrentMessageResult msg with
  | some e =>
      { setCalls := [msg], handleCalls := [], emits := [], channelOps := [],
        escaped := some e }
  | none =>
      match l.handleMessageResult msg with
      | some e =>
          { setCalls := [msg], handleCalls := [msg],
            emits := [(Constant.MESSAGE_CONSUMER_ERROR_EVENT_NAME, e)],
            channelOps := [], escaped := none }
      | none =>
          { setCalls := [msg], handleCalls := [msg], emits := [], channelOps := [],
            escaped := none }

/-- A registered consumer stays in place for the lifetime of the channel:
a stream of deliveries is handled by applying the one registered
per-delivery callback to each delivery in turn. -/
def processDeliveries (l : MessageListener) (msgs : List String) : List DeliveryEffects :=
  msgs.map (onDelivery l)

end Queue

/-- Transport double on which every broker primitive succeeds; an
empty-name assertion is answered with the broker-generated name
`amq.gen-1`, a named one with the requested name. -/
def tOk : Transport :=
  { buildResult := none
    assertQueue := fun qname _ _ _ => Except.ok (if qname = "" then "amq.gen-1" else qname)
    bindQueue := fun _ _ _ => none }

/-- Transport double whose `assertQueue` always rejects with `boom`. -/
def tAssertFails : Transport :=
  { buildResult := none
    assertQueue := fun _ _ _ _ => Except.error "boom"
    bindQueue := fun _ _ _ => none }

/-- Transport double whose `build()` throws `conn refused`. -/
def tBuildFails : Transport :=
  { buildResult := some "conn refused"
    assertQueue := fun _ _ _ _ => Except.error "unreachable"
    bindQueue := fun _ _ _ => some "unreachable" }

/-- Transport double on which binding the routing key `bad` rejects with
`no route` while everything else succeeds. -/
def tBindFails : Transport :=
  { buildResult := none
    assertQueue := fun qname _ _ _ => Except.ok (if qname = "" then "amq.gen-1" else qname)
    bindQueue := fun _ _ k => if k = "bad" then some "no route" else none }

/-- Listener double whose `handleMessage` throws `kaput` on the message
`bad` and returns normally otherwise; `setCurrentMessage` never throws. -/
def throwingListener : MessageListener :=
  { setCurrentMessageResult := fun _ => none
    handleMessageResult := fun m => if m = "bad" then some "kaput" else none }

/-- Listener double whose `setCurrentMessage` itself throws on every
message. -/
def setThrowListener : MessageListener :=
  { setCurrentMessageResult := fun _ => some "cannot set"
    handleMessageResult := fun _ => none }

/-- Second entry of an I/O trace: in every construction pipeline that gets
past `build()`, this is the `assertQueue` call. -/
def secondCall (tr : List Event) : Option Event :=
  match tr with
  | _ :: ev :: _ => some ev
  | _ => none

/-- C1: the claim says every name-requiring recipe — explicitly including
`exchangeNamedSubscriberInstance` — rejects a null/empty name with the
name-required diagnostic before any I/O.  The code violates this:
`exchangeNamedSubscriberInstance` has no name check, so with an empty name
it issues `build`, `assertQueue` and `bindQueue` and resolves with the
broker-assigned name, while its sibling `durableInstance` rejects the same
empty name with the name-required diagnostic and an empty I/O trace. -/
theorem c1_exchangeNamedSubscriber_empty_name_does_io :
    exchangeNamedSubscriberInstance tOk "ex" "" =
      (Outcome.resolved { name := "amq.gen-1", isDurable := true },
        [Event.build, Event.assertQueue "" true false false,
          Event.bindQueue "amq.gen-1" "ex" ""]) ∧
    durableInstance tOk "" =
      (Outcome.rejected Constant.INDIVIDUAL_SUBSCRIBER_MUST_HAS_NAME, []) := by
  constructor
  · rfl
  · rfl

/-- C7: `ack(message)` issues exactly one acknowledgment on the channel,
for exactly that message, with amqplib's omitted `allUpTo` defaulting to
`false` (no cumulative batching); `nack(message, reqeue)` issues exactly
one negative acknowledgment with `allUpTo` fixed to `false` and the
caller's requeue flag forwarded unchanged. -/
theorem c7_single_message_ack_and_nack (message : String) (reqeue : Bool) :
    Queue.ack message = [ChannelOp.ackOp message false] ∧
    Queue.nack message reqeue = [ChannelOp.nackOp message false reqeue] :=
  ⟨rfl, rfl⟩

/-- C8: `durableInstance` and `durableNonExclusiveNotAutoDeletedInstance`
are observationally equivalent at the caller interface: on every transport
and name they produce the same settlement and the same broker I/O trace
(both validate, build, assert `(true, false, false)`, and reject with the
same diagnostics on the same failures). -/
theorem c8_durableInstance_equals_durableNonExclusive (t : Transport) (name : String) :
    durableInstance t name = durableNonExclusiveNotAutoDeletedInstance t name :=
  rfl

/-- C9: the per-delivery callback invokes `setCurrentMessage` first, with
that delivery, on every delivery; and an exception thrown by
`setCurrentMessage` itself is outside the guard — it escapes the callback,
`handleMessage` is never reached, and no `MessageConsumerError` event is
emitted. -/
theorem c9_setCurrentMessage_outside_guard (l : MessageListener) (msg e : String)
    (hset : l.setCurrentMessageResult msg = some e) :
    Queue.onDelivery l msg =
      { setCalls := [msg], handleCalls := [], emits := [], channelOps := [],
        escaped := some e } ∧
    (∀ m, (Queue.onDelivery l m).setCalls = [m]) := by
  constructor
  · simp [Queue.onDelivery, hset]
  · intro m
    unfold Queue.onDelivery
    cases l.setCurrentMessageResult m
    · cases l.handleMessageResult m <;> rfl
    · rfl

/-- C9 witness, instantiating the theorem on `setThrowListener`. -/
theorem c9_witness :
    Queue.onDelivery setThrowListener "m1" =
      { setCalls := ["m1"], handleCalls := [], emits := [], channelOps := [],
        escaped := some "cannot set" } ∧
    (∀ m, (Queue.onDelivery setThrowListener m).setCalls = [m]) :=
  c9_setCurrentMessage_outside_guard setThrowListener "m1" "cannot set" rfl

/-- C10: `constructQueueAssertion` performs `setDurable` before awaiting the
broker, so the durability flag carries the requested value afterwards in
every case — in particular after an assertion failure, when the name is
still the pre-call one and the thrown error is the assertion diagnostic
around the broker's rejection. -/
theorem c10_setDurable_precedes_assert (t : Transport) (st : QueueState)
    (isDurable isExclusive isAutoDeleted : Bool) (m : String) :
    (constructQueueAssertion t st isDurable isExclusive isAutoDeleted).2.1.isDurable = isDurable ∧
    ((constructQueueAssertion t st isDurable isExclusive isAutoDeleted).1 = some m →
      (constructQueueAssertion t st isDurable isExclusive isAutoDeleted).2.1.name = st.name ∧
      ∃ e, t.assertQueue st.name isDurable isExclusive isAutoDeleted = Except.error e ∧
        m = Constant.FAILED_ASSERT_QUEUE ++ e) := by
  cases hq : t.assertQueue st.name isDurable isExclusive isAutoDeleted <;>
    simp [constructQueueAssertion, hq]
  intro hm
  exact hm.symm

/-- C10 witness: on the always-failing transport the flag is overwritten to
the requested value while the name stays `q`. -/
theorem c10_witness :
    (constructQueueAssertion tAssertFails ⟨"q", false⟩ true false false).2.1.isDurable = true ∧
    (constructQueueAssertion tAssertFails ⟨"q", false⟩ true false false).2.1.name = "q" ∧
    (∃ e, tAssertFails.assertQueue "q" true false false = Except.error e ∧
      Constant.FAILED_ASSERT_QUEUE ++ "boom" = Constant.FAILED_ASSERT_QUEUE ++ e) :=
  ⟨(c10_setDurable_precedes_assert tAssertFails ⟨"q", false⟩ true false false
      (Constant.FAILED_ASSERT_QUEUE ++ "boom")).1,
    ((c10_setDurable_precedes_assert tAssertFails ⟨"q", false⟩ true false false
      (Constant.FAILED_ASSERT_QUEUE ++ "boom")).2 rfl).1,
    ((c10_setDurable_precedes_assert tAssertFails ⟨"q", false⟩ true false false
      (Constant.FAILED_ASSERT_QUEUE ++ "boom")).2 rfl).2⟩

/-- C6: when `handleMessage` throws synchronously, the per-delivery
callback catches it — exactly one `MessageConsumerError` event carrying
that exception is emitted on the queue instance, nothing escapes towards
the broker layer, the callback issues no ack or nack of its own, and the
registered callback keeps processing subsequent deliveries. -/
theorem c6_handler_exception_isolated (l : MessageListener) (msg e : String)
    (rest : List String)
    (hset : l.setCurrentMessageResult msg = none)
    (hthrow : l.handleMessageResult msg = some e) :
    Queue.onDelivery l msg =
      { setCalls := [msg], handleCalls := [msg],
        emits := [(Constant.MESSAGE_CONSUMER_ERROR_EVENT_NAME, e)],
        channelOps := [], escaped := none } ∧
    Queue.processDeliveries l (msg :: rest) =
      Queue.onDelivery l msg :: rest.map (Queue.onDelivery l) := by
  constructor
  · simp [Queue.onDelivery, hset, hthrow]
  · rfl

/-- C6 witness, instantiating the theorem on `throwingListener` and the
delivery stream `[bad, fine]`. -/
theorem c6_witness :
    Queue.onDelivery throwingListener "bad" =
      { setCalls := ["bad"], handleCalls := ["bad"],
        emits := [(Constant.MESSAGE_CONSUMER_ERROR_EVENT_NAME, "kaput")],
        channelOps := [], escaped := none } ∧
    Queue.processDeliveries throwingListener ["bad", "fine"] =
      Queue.onDelivery throwingListener "bad" ::
        ["fine"].map (Queue.onDelivery throwingListener) :=
  c6_handler_exception_isolated throwingListener "bad" "kaput" ["fine"] rfl rfl

/-- C3: for the two anonymous-name recipes, once the broker's `assertQueue`
reply carries the name `r`, the only resolution is a queue whose `name` is
`r` (never the empty request-time name), and every bind call in the trace
uses `r`. -/
theorem c3_broker_assigned_name (t : Transport) (exchangeName r : String)
    (routingKeys : List String)
    (hb : t.buildResult = none)
    (ha : t.assertQueue "" false true true = Except.ok r) :
    (t.bindQueue r exchangeName "" = none →
      (exchangeTemporarySubscriberInstance t exchangeName).1 =
        Outcome.resolved { name := r, isDurable := false }) ∧
    (∀ e, t.bindQueue r exchangeName "" = some e →
      (exchangeTemporarySubscriberInstance t exchangeName).1 =
        Outcome.rejected (Constant.FAILED_BINDING_QUEUE_AND_EXCHANGE ++ e)) ∧
    (exchangeTemporarySubscriberInstance t exchangeName).2 =
      [Event.build, Event.assertQueue "" false true true,
        Event.bindQueue r exchangeName ""] ∧
    ((∀ k ∈ routingKeys, t.bindQueue r exchangeName k = none) →
      (exchangeTemporaryDirectOrTopicSubscriberInstance t exchangeName routingKeys).1 =
        Outcome.resolved { name := r, isDurable := false }) ∧
    (exchangeTemporaryDirectOrTopicSubscriberInstance t exchangeName routingKeys).2 =
      Event.build :: Event.assertQueue "" false true true ::
        routingKeys.map (fun k => Event.bindQueue r exchangeName k) := by
  refine ⟨?_, ?_, ?_, ?_, ?_⟩
  · intro hbd
    simp [exchangeTemporarySubscriberInstance, constructQueueAssertion, newQueue, hb, ha, hbd]
  · intro e hbd
    simp [exchangeTemporarySubscriberInstance, constructQueueAssertion, newQueue, hb, ha, hbd]
  · cases hbd : t.bindQueue r exchangeName "" <;>
      simp [exchangeTemporarySubscriberInstance, constructQueueAssertion, newQueue, hb, ha, hbd]
  · intro hall
    have hnil : routingKeys.filterMap (fun k => t.bindQueue r exchangeName k) = [] :=
      List.filterMap_eq_nil_iff.mpr hall
    simp [exchangeTemporaryDirectOrTopicSubscriberInstance, constructQueueAssertion,
      newQueue, hb, ha, hnil]
  · cases hbd : (routingKeys.filterMap (fun k => t.bindQueue r exchangeName k)).head? <;>
      simp [exchangeTemporaryDirectOrTopicSubscriberInstance, constructQueueAssertion,
        newQueue, hb, ha, hbd]

/-- C3 witness: on the all-success transport both anonymous recipes resolve
with the broker-generated name and bind it. -/
theorem c3_witness :
    ((tOk.bindQueue "amq.gen-1" "ex" "" = none →
      (exchangeTemporarySubscriberInstance tOk "ex").1 =
        Outcome.resolved { name := "amq.gen-1", isDurable := false })) ∧
    (∀ e, tOk.bindQueue "amq.gen-1" "ex" "" = some e →
      (exchangeTemporarySubscriberInstance tOk "ex").1 =
        Outcome.rejected (Constant.FAILED_BINDING_QUEUE_AND_EXCHANGE ++ e)) ∧
    (exchangeTemporarySubscriberInstance tOk "ex").2 =
      [Event.build, Event.assertQueue "" false true true,
        Event.bindQueue "amq.gen-1" "ex" ""] ∧
    ((∀ k ∈ ["a", "b"], tOk.bindQueue "amq.gen-1" "ex" k = none) →
      (exchangeTemporaryDirectOrTopicSubscriberInstance tOk "ex" ["a", "b"]).1 =
        Outcome.resolved { name := "amq.gen-1", isDurable := false }) ∧
    (exchangeTemporaryDirectOrTopicSubscriberInstance tOk "ex" ["a", "b"]).2 =
      Event.build :: Event.assertQueue "" false true true ::
        ["a", "b"].map (fun k => Event.bindQueue "amq.gen-1" "ex" k) :=
  c3_broker_assigned_name tOk "ex" "amq.gen-1" ["a", "b"] rfl rfl

/-- C4: whenever a durable recipe reaches the assertion stage, the
`assertQueue` call it issues (the second I/O call, right after `build`)
carries `durable = true` with the recipe's exclusive/auto-delete pair,
and both temporary recipes issue exactly
`(durable, exclusive, autoDelete) = (false, true, true)`. -/
theorem c4_asserted_flag_policy (t : Transport) (exchangeName name : String)
    (routingKeys : List String)
    (hn : name ≠ "") (hb : t.buildResult = none) :
    secondCall (durableInstance t name).2 =
      some (Event.assertQueue name true false false) ∧
    secondCall (durableExclusiveInstance t name).2 =
      some (Event.assertQueue name true true false) ∧
    secondCall (durableNonExclusiveNotAutoDeletedInstance t name).2 =
      some (Event.assertQueue name true false false) ∧
    secondCall (individualExchangeSubscriberInstance t exchangeName name routingKeys).2 =
      some (Event.assertQueue name true false false) ∧
    secondCall (exchangeNamedSubscriberInstance t exchangeName name).2 =
      some (Event.assertQueue name true false false) ∧
    secondCall (exchangeTemporarySubscriberInstance t exchangeName).2 =
      some (Event.assertQueue "" false true true) ∧
    secondCall (exchangeTemporaryDirectOrTopicSubscriberInstance t exchangeName routingKeys).2 =
      some (Event.assertQueue "" false true true) := by
  refine ⟨?_, ?_, ?_, ?_, ?_, ?_, ?_⟩
  · cases hq : t.assertQueue name true false false <;>
      simp [durableInstance, constructQueueAssertion, newQueue, secondCall, hn, hb, hq]
  · cases hq : t.assertQueue name true true false <;>
      simp [durableExclusiveInstance, constructQueueAssertion, newQueue, secondCall, hn, hb, hq]
  · cases hq : t.assertQueue name true false false <;>
      simp [durableNonExclusiveNotAutoDeletedInstance, constructQueueAssertion, newQueue,
        secondCall, hn, hb, hq]
  · cases hq : t.assertQueue name true false false with
    | ok r =>
        cases hbd : (routingKeys.filterMap (fun k => t.bindQueue r exchangeName k)).head? <;>
          simp [individualExchangeSubscriberInstance, constructQueueAssertion, newQueue,
            secondCall, hn, hb, hq, hbd]
    | error e =>
        simp [individualExchangeSubscriberInstance, constructQueueAssertion, newQueue,
          secondCall, hn, hb, hq]
  · cases hq : t.assertQueue name true false false with
    | ok r =>
        cases hbd : t.bindQueue r exchangeName "" <;>
          simp [exchangeNamedSubscriberInstance, constructQueueAssertion, newQueue,
            secondCall, hb, hq, hbd]
    | error e =>
        simp [exchangeNamedSubscriberInstance, constructQueueAssertion, newQueue,
          secondCall, hb, hq]
  · cases hq : t.assertQueue "" false true true with
    | ok r =>
        cases hbd : t.bindQueue r exchangeName "" <;>
          simp [exchangeTemporarySubscriberInstance, constructQueueAssertion, newQueue,
            secondCall, hb, hq, hbd]
    | error e =>
        simp [exchangeTemporarySubscriberInstance, constructQueueAssertion, newQueue,
          secondCall, hb, hq]
  · cases hq : t.assertQueue "" false true true with
    | ok r =>
        cases hbd : (routingKeys.filterMap (fun k => t.bindQueue r exchangeName k)).head? <;>
          simp [exchangeTemporaryDirectOrTopicSubscriberInstance, constructQueueAssertion,
            newQueue, secondCall, hb, hq, hbd]
    | error e =>
        simp [exchangeTemporaryDirectOrTopicSubscriberInstance, constructQueueAssertion,
          newQueue, secondCall, hb, hq]

/-- C4 witness on the always-rejecting assertion transport: the asserted
flag triples are still issued as the policy table prescribes. -/
theorem c4_witness :
    secondCall (durableInstance tAssertFails "q").2 =
      some (Event.assertQueue "q" true false false) ∧
    secondCall (durableExclusiveInstance tAssertFails "q").2 =
      some (Event.assertQueue "q" true true false) ∧
    secondCall (durableNonExclusiveNotAutoDeletedInstance tAssertFails "q").2 =
      some (Event.assertQueue "q" true false false) ∧
    secondCall (individualExchangeSubscriberInstance tAssertFails "ex" "q" ["a"]).2 =
      some (Event.assertQueue "q" true false false) ∧
    secondCall (exchangeNamedSubscriberInstance tAssertFails "ex" "q").2 =
      some (Event.assertQueue "q" true false false) ∧
    secondCall (exchangeTemporarySubscriberInstance tAssertFails "ex").2 =
      some (Event.assertQueue "" false true true) ∧
    secondCall (exchangeTemporaryDirectOrTopicSubscriberInstance tAssertFails "ex" ["a"]).2 =
      some (Event.assertQueue "" false true true) :=
  c4_asserted_flag_policy tAssertFails "ex" "q" ["a"] (by decide) rfl

/-- C5: in each exchange-bound recipe that takes a routing-key list, a
successful assertion (broker reply `r`) is followed by exactly one bind
event per routing key, each `(r, exchangeName, thatKey)` — the trace
equality pins both the count and the arguments; when every bind succeeds
the recipe resolves, and when at least one bind fails it rejects with the
binding diagnostic and no queue value is ever resolved. -/
theorem c5_binding_fanout (t : Transport) (exchangeName name r : String)
    (routingKeys : List String) (isDurable isExclusive isAutoDeleted : Bool)
    (hn : name ≠ "") (hb : t.buildResult = none) :
    (t.assertQueue name isDurable isExclusive isAutoDeleted = Except.ok r →
      (customInstanceUsingExchange t exchangeName name routingKeys
          isDurable isExclusive isAutoDeleted).2 =
        Event.build :: Event.assertQueue name isDurable isExclusive isAutoDeleted ::
          routingKeys.map (fun k => Event.bindQueue r exchangeName k) ∧
      ((∀ k ∈ routingKeys, t.bindQueue r exchangeName k = none) →
        (customInstanceUsingExchange t exchangeName name routingKeys
            isDurable isExclusive isAutoDeleted).1 =
          Outcome.resolved { name := r, isDurable := isDurable }) ∧
      ((∃ k ∈ routingKeys, t.bindQueue r exchangeName k ≠ none) →
        ∃ msg, (customInstanceUsingExchange t exchangeName name routingKeys
            isDurable isExclusive isAutoDeleted).1 =
          Outcome.rejected (Constant.FAILED_BINDING_QUEUE_AND_EXCHANGE ++ msg) ∧
          ∀ q, (customInstanceUsingExchange t exchangeName name routingKeys
              isDurable isExclusive isAutoDeleted).1 ≠ Outcome.resolved q)) ∧
    (t.assertQueue name true false false = Except.ok r →
      (individualExchangeSubscriberInstance t exchangeName name routingKeys).2 =
        Event.build :: Event.assertQueue name true false false ::
          routingKeys.map (fun k => Event.bindQueue r exchangeName k) ∧
      ((∀ k ∈ routingKeys, t.bindQueue r exchangeName k = none) →
        (individualExchangeSubscriberInstance t exchangeName name routingKeys).1 =
          Outcome.resolved { name := r, isDurable := true }) ∧
      ((∃ k ∈ routingKeys, t.bindQueue r exchangeName k ≠ none) →
        ∃ msg, (individualExchangeSubscriberInstance t exchangeName name routingKeys).1 =
          Outcome.rejected (Constant.FAILED_BINDING_QUEUE_AND_EXCHANGE ++ msg) ∧
          ∀ q, (individualExchangeSubscriberInstance t exchangeName name routingKeys).1 ≠
            Outcome.resolved q)) ∧
    (t.assertQueue "" false true true = Except.ok r →
      (exchangeTemporaryDirectOrTopicSubscriberInstance t exchangeName routingKeys).2 =
        Event.build :: Event.assertQueue "" false true true ::
          routingKeys.map (fun k => Event.bindQueue r exchangeName k) ∧
      ((∀ k ∈ routingKeys, t.bindQueue r exchangeName k = none) →
        (exchangeTemporaryDirectOrTopicSubscriberInstance t exchangeName routingKeys).1 =
          Outcome.resolved { name := r, isDurable := false }) ∧
      ((∃ k ∈ routingKeys, t.bindQueue r exchangeName k ≠ none) →
        ∃ msg, (exchangeTemporaryDirectOrTopicSubscriberInstance t exchangeName routingKeys).1 =
          Outcome.rejected (Constant.FAILED_BINDING_QUEUE_AND_EXCHANGE ++ msg) ∧
          ∀ q, (exchangeTemporaryDirectOrTopicSubscriberInstance t exchangeName routingKeys).1 ≠
            Outcome.resolved q)) := by
  refine ⟨?_, ?_, ?_⟩
  · intro ha
    refine ⟨?_, ?_, ?_⟩
    · cases hbd : (routingKeys.filterMap (fun k => t.bindQueue r exchangeName k)).head? <;>
        simp [customInstanceUsingExchange, constructQueueAssertion, newQueue, hn, hb, ha, hbd]
    · intro hall
      have hnil : routingKeys.filterMap (fun k => t.bindQueue r exchangeName k) = [] :=
        List.filterMap_eq_nil_iff.mpr hall
      simp [customInstanceUsingExchange, constructQueueAssertion, newQueue, hn, hb, ha, hnil]
    · rintro ⟨rk, hrk, hne⟩
      cases hl : routingKeys.filterMap (fun k => t.bindQueue r exchangeName k) with
      | nil => exact absurd (List.filterMap_eq_nil_iff.mp hl rk hrk) hne
      | cons a as =>
          refine ⟨a, ?_, ?_⟩ <;>
            simp [customInstanceUsingExchange, constructQueueAssertion, newQueue, hn, hb, ha, hl]
  · intro ha
    refine ⟨?_, ?_, ?_⟩
    · cases hbd : (routingKeys.filterMap (fun k => t.bindQueue r exchangeName k)).head? <;>
        simp [individualExchangeSubscriberInstance, constructQueueAssertion, newQueue,
          hn, hb, ha, hbd]
    · intro hall
      have hnil : routingKeys.filterMap (fun k => t.bindQueue r exchangeName k) = [] :=
        List.filterMap_eq_nil_iff.mpr hall
      simp [individualExchangeSubscriberInstance, constructQueueAssertion, newQueue,
        hn, hb, ha, hnil]
    · rintro ⟨rk, hrk, hne⟩
      cases hl : routingKeys.filterMap (fun k => t.bindQueue r exchangeName k) with
      | nil => exact absurd (List.filterMap_eq_nil_iff.mp hl rk hrk) hne
      | cons a as =>
          refine ⟨a, ?_, ?_⟩ <;>
            simp [individualExchangeSubscriberInstance, constructQueueAssertion, newQueue,
              hn, hb, ha, hl]
  · intro ha
    refine ⟨?_, ?_, ?_⟩
    · cases hbd : (routingKeys.filterMap (fun k => t.bindQueue r exchangeName k)).head? <;>
        simp [exchangeTemporaryDirectOrTopicSubscriberInstance, constructQueueAssertion,
          newQueue, hb, ha, hbd]
    · intro hall
      have hnil : routingKeys.filterMap (fun k => t.bindQueue r exchangeName k) = [] :=
        List.filterMap_eq_nil_iff.mpr hall
      simp [exchangeTemporaryDirectOrTopicSubscriberInstance, constructQueueAssertion,
        newQueue, hb, ha, hnil]
    · rintro ⟨rk, hrk, hne⟩
      cases hl : routingKeys.filterMap (fun k => t.bindQueue r exchangeName k) with
      | nil => exact absurd (List.filterMap_eq_nil_iff.mp hl rk hrk) hne
      | cons a as =>
          refine ⟨a, ?_, ?_⟩ <;>
            simp [exchangeTemporaryDirectOrTopicSubscriberInstance, constructQueueAssertion,
              newQueue, hb, ha, hl]

/-- C5 witness: with two routing keys the trace carries exactly two bind
events with the respective keys, and the failing key `bad` forces a
binding-diagnostic rejection with no resolution. -/
theorem c5_witness :
    (individualExchangeSubscriberInstance tBindFails "ex" "q" ["a", "bad"]).2 =
      Event.build :: Event.assertQueue "q" true false false ::
        ["a", "bad"].map (fun k => Event.bindQueue "q" "ex" k) ∧
    (∃ msg, (individualExchangeSubscriberInstance tBindFails "ex" "q" ["a", "bad"]).1 =
      Outcome.rejected (Constant.FAILED_BINDING_QUEUE_AND_EXCHANGE ++ msg) ∧
      ∀ q, (individualExchangeSubscriberInstance tBindFails "ex" "q" ["a", "bad"]).1 ≠
        Outcome.resolved q) := by
  have h := (c5_binding_fanout tBindFails "ex" "q" "q" ["a", "bad"] true false false
    (by decide) rfl).2.1 rfl
  exact ⟨h.1, h.2.2 ⟨"bad", by decide, by decide⟩⟩

/-- C2 counterexample: when `constructQueueAssertion` rejects inside
`customInstanceUsingConnectionSetting` — a recipe with no binding stage —
the rejection's stage tag is the binding diagnostic, not the assertion
diagnostic: the claim that the rejection names the assertion stage is
false on the code. -/
theorem c2_counterexample_assert_failure_tagged_binding :
    (customInstanceUsingConnectionSetting tAssertFails "q" true false false).1 =
      Outcome.rejected (Constant.FAILED_BINDING_QUEUE_AND_EXCHANGE ++
        errorToString (Constant.FAILED_ASSERT_QUEUE ++ "boom")) ∧
    Constant.FAILED_BINDING_QUEUE_AND_EXCHANGE ≠ Constant.FAILED_ASSERT_QUEUE := by
  constructor
  · rfl
  · decide

/-- C2 (amended): build failures are tagged with the build diagnostic in
all nine recipes, and bind failures with the binding diagnostic; assertion
failures are tagged with the assertion diagnostic only in the three
durable connection-based recipes, while in the two custom recipes and the
four exchange-subscriber recipes the outer catch tags them with the
binding diagnostic, the assertion diagnostic surviving only inside the
stringified error it wraps. -/
theorem c2_amended_stage_diagnostics (t : Transport) (exchangeName name e r : String)
    (routingKeys : List String) (isDurable isExclusive isAutoDeleted : Bool)
    (hn : name ≠ "") :
    (t.buildResult = some e →
      (customInstanceUsingConnectionSetting t name isDurable isExclusive isAutoDeleted).1 =
        Outcome.rejected (Constant.QUEUE_BUILD_THROWS_ERROR ++ e) ∧
      (customInstanceUsingExchange t exchangeName name routingKeys
          isDurable isExclusive isAutoDeleted).1 =
        Outcome.rejected (Constant.QUEUE_BUILD_THROWS_ERROR ++ e) ∧
      (durableInstance t name).1 =
        Outcome.rejected (Constant.QUEUE_BUILD_THROWS_ERROR ++ e) ∧
      (durableExclusiveInstance t name).1 =
        Outcome.rejected (Constant.QUEUE_BUILD_THROWS_ERROR ++ e) ∧
      (durableNonExclusiveNotAutoDeletedInstance t name).1 =
        Outcome.rejected (Constant.QUEUE_BUILD_THROWS_ERROR ++ e) ∧
      (individualExchangeSubscriberInstance t exchangeName name routingKeys).1 =
        Outcome.rejected (Constant.QUEUE_BUILD_THROWS_ERROR ++ e) ∧
      (exchangeTemporarySubscriberInstance t exchangeName).1 =
        Outcome.rejected (Constant.QUEUE_BUILD_THROWS_ERROR ++ e) ∧
      (exchangeNamedSubscriberInstance t exchangeName name).1 =
        Outcome.rejected (Constant.QUEUE_BUILD_THROWS_ERROR ++ e) ∧
      (exchangeTemporaryDirectOrTopicSubscriberInstance t exchangeName routingKeys).1 =
        Outcome.rejected (Constant.QUEUE_BUILD_THROWS_ERROR ++ e)) ∧
    (t.buildResult = none →
      (t.assertQueue name true false false = Except.error e →
        (durableInstance t name).1 =
          Outcome.rejected (Constant.FAILED_ASSERT_QUEUE ++
            errorToString (Constant.FAILED_ASSERT_QUEUE ++ e)) ∧
        (durableNonExclusiveNotAutoDeletedInstance t name).1 =
          Outcome.rejected (Constant.FAILED_ASSERT_QUEUE ++
            errorToString (Constant.FAILED_ASSERT_QUEUE ++ e)) ∧
        (customInstanceUsingConnectionSetting t name true false false).1 =
          Outcome.rejected (Constant.FAILED_BINDING_QUEUE_AND_EXCHANGE ++
            errorToString (Constant.FAILED_ASSERT_QUEUE ++ e)) ∧
        (customInstanceUsingExchange t exchangeName name routingKeys true false false).1 =
          Outcome.rejected (Constant.FAILED_BINDING_QUEUE_AND_EXCHANGE ++
            errorToString (Constant.FAILED_ASSERT_QUEUE ++ e)) ∧
        (individualExchangeSubscriberInstance t exchangeName name routingKeys).1 =
          Outcome.rejected (Constant.FAILED_BINDING_QUEUE_AND_EXCHANGE ++
            errorToString (Constant.FAILED_ASSERT_QUEUE ++ e)) ∧
        (exchangeNamedSubscriberInstance t exchangeName name).1 =
          Outcome.rejected (Constant.FAILED_BINDING_QUEUE_AND_EXCHANGE ++
            errorToString (Constant.FAILED_ASSERT_QUEUE ++ e))) ∧
      (t.assertQueue name true true false = Except.error e →
        (durableExclusiveInstance t name).1 =
          Outcome.rejected (Constant.FAILED_ASSERT_QUEUE ++
            errorToString (Constant.FAILED_ASSERT_QUEUE ++ e))) ∧
      (t.assertQueue "" false true true = Except.error e →
        (exchangeTemporarySubscriberInstance t exchangeName).1 =
          Outcome.rejected (Constant.FAILED_BINDING_QUEUE_AND_EXCHANGE ++
            errorToString (Constant.FAILED_ASSERT_QUEUE ++ e)) ∧
        (exchangeTemporaryDirectOrTopicSubscriberInstance t exchangeName routingKeys).1 =
          Outcome.rejected (Constant.FAILED_BINDING_QUEUE_AND_EXCHANGE ++
            errorToString (Constant.FAILED_ASSERT_QUEUE ++ e))) ∧
      (t.assertQueue "" false true true = Except.ok r →
        t.bindQueue r exchangeName "" = some e →
        (exchangeTemporarySubscriberInstance t exchangeName).1 =
          Outcome.rejected (Constant.FAILED_BINDING_QUEUE_AND_EXCHANGE ++ e)) ∧
      (t.assertQueue name true false false = Except.ok r →
        t.bindQueue r exchangeName "" = some e →
        (exchangeNamedSubscriberInstance t exchangeName name).1 =
          Outcome.rejected (Constant.FAILED_BINDING_QUEUE_AND_EXCHANGE ++ e)) ∧
      (t.assertQueue "" false true true = Except.ok r →
        (routingKeys.filterMap (fun k => t.bindQueue r exchangeName k)).head? = some e →
        (exchangeTemporaryDirectOrTopicSubscriberInstance t exchangeName routingKeys).1 =
          Outcome.rejected (Constant.FAILED_BINDING_QUEUE_AND_EXCHANGE ++ e))) := by
  constructor
  · intro hbuild
    refine ⟨?_, ?_, ?_, ?_, ?_, ?_, ?_, ?_, ?_⟩ <;>
      simp [customInstanceUsingConnectionSetting, customInstanceUsingExchange,
        durableInstance, durableExclusiveInstance,
        durableNonExclusiveNotAutoDeletedInstance, individualExchangeSubscriberInstance,
        exchangeTemporarySubscriberInstance, exchangeNamedSubscriberInstance,
        exchangeTemporaryDirectOrTopicSubscriberInstance, hn, hbuild]
  · intro hb
    refine ⟨?_, ?_, ?_, ?_, ?_, ?_⟩
    · intro ha
      refine ⟨?_, ?_, ?_, ?_, ?_, ?_⟩ <;>
        simp [durableInstance, durableNonExclusiveNotAutoDeletedInstance,
          customInstanceUsingConnectionSetting, customInstanceUsingExchange,
          individualExchangeSubscriberInstance, exchangeNamedSubscriberInstance,
          constructQueueAssertion, newQueue, hn, hb, ha]
    · intro ha
      simp [durableExclusiveInstance, constructQueueAssertion, newQueue, hn, hb, ha]
    · intro ha
      constructor <;>
        simp [exchangeTemporarySubscriberInstance,
          exchangeTemporaryDirectOrTopicSubscriberInstance, constructQueueAssertion,
          newQueue, hb, ha]
    · intro ha hbd
      simp [exchangeTemporarySubscriberInstance, constructQueueAssertion, newQueue,
        hb, ha, hbd]
    · intro ha hbd
      simp [exchangeNamedSubscriberInstance, constructQueueAssertion, newQueue,
        hb, ha, hbd]
    · intro ha hbd
      simp [exchangeTemporaryDirectOrTopicSubscriberInstance, constructQueueAssertion,
        newQueue, hb, ha, hbd]

/-- C2 witness: on the transport whose assertion rejects with `boom`, the
durable recipe is tagged with the assertion diagnostic and the custom
connection-based recipe with the binding diagnostic. -/
theorem c2_amended_witness :
    (durableInstance tAssertFails "q").1 =
      Outcome.rejected (Constant.FAILED_ASSERT_QUEUE ++
        errorToString (Constant.FAILED_ASSERT_QUEUE ++ "boom")) ∧
    (customInstanceUsingConnectionSetting tAssertFails "q" true false false).1 =
      Outcome.rejected (Constant.FAILED_BINDING_QUEUE_AND_EXCHANGE ++
        errorToString (Constant.FAILED_ASSERT_QUEUE ++ "boom")) := by
  have h := ((c2_amended_stage_diagnostics tAssertFails "ex" "q" "boom" "r" ["a"]
    true false false (by decide)).2 rfl).1 rfl
  exact ⟨h.1, h.2.2.1⟩

end RabbitMQ
